import Mathlib

/-
  Verification of the account-verification state machine
  (packages/authorization/src/providers/account-verification.ts).

  The TypeScript class AccountVerification is shallowly embedded as pure
  Lean functions.  External collaborators (the cookie-aware fetch, the
  callback service supplying two-factor codes and captcha keys, and the
  URL-resolution helper getFullURL, whose module is not among the sources)
  are modelled as an environment record; every observable interaction
  (markup load, form extraction, external-validator request, pending
  rejection, HTTP GET/POST) is recorded in an event trace so that ordering
  properties can be stated.  JavaScript string builtins (includes, trim,
  slice, replace, URLSearchParams, Number) are modelled on List Char with
  structural recursion, faithful on the ASCII inputs the flow handles.
-/

/- JS String.prototype.includes: substring containment. -/

def startsWithL : List Char → List Char → Bool
  | [], _ => true
  | _ :: _, [] => false
  | c :: cs, d :: ds => c == d && startsWithL cs ds

def containsL (needle : List Char) : List Char → Bool
  | [] => startsWithL needle []
  | c :: cs => startsWithL needle (c :: cs) || containsL needle cs

def jsIncludes (s sub : String) : Bool := containsL sub.data s.data

/- JS String.prototype.trim (ASCII whitespace subset). -/

def isJsSpace (c : Char) : Bool :=
  c == ' ' || c == '\t' || c == '\n' || c == '\r' || c == '\x0b' || c == '\x0c'

def trimL (l : List Char) : List Char :=
  ((l.dropWhile isJsSpace).reverse.dropWhile isJsSpace).reverse

def jsTrim (s : String) : String := String.mk (trimL s.data)

/- Splitting on a single separator character. -/

def splitOnChar (sep : Char) : List Char → List (List Char)
  | [] => [[]]
  | c :: cs =>
    let r := splitOnChar sep cs
    if c == sep then [] :: r
    else
      match r with
      | [] => [[c]]
      | g :: gs => (c :: g) :: gs

def intercalateChar (sep : Char) : List (List Char) → List Char
  | [] => []
  | [g] => g
  | g :: gs => g ++ sep :: intercalateChar sep gs

/- `number.replace(/^(\+|00)/, '')`: strip one leading plus sign or one
   leading "00". -/

def stripLeadingPlusOrZerosL : List Char → List Char
  | '+' :: rest => rest
  | '0' :: '0' :: rest => rest
  | l => l

def stripLeadingPlusOrZeros (s : String) : String :=
  String.mk (stripLeadingPlusOrZerosL s.data)

/- `text.replace('+', '')`: JS string-pattern replace removes only the
   first occurrence. -/

def removeFirstPlusL : List Char → List Char
  | [] => []
  | '+' :: rest => rest
  | c :: rest => c :: removeFirstPlusL rest

def removeFirstPlus (s : String) : String := String.mk (removeFirstPlusL s.data)

/- JS String.prototype.slice with signed indices and clamping. -/

def jsSlice (s : String) (start stop : Int) : String :=
  let len : Int := (s.data.length : Int)
  let a : Nat := (if start < 0 then max (len + start) 0 else min start len).toNat
  let b : Nat := (if stop < 0 then max (len + stop) 0 else min stop len).toNat
  String.mk ((s.data.drop a).take (b - a))

/- URLSearchParams percent/plus decoding (ASCII subset). -/

def hexDigitVal (c : Char) : Option Nat :=
  if c.isDigit then some (c.toNat - 48)
  else if 'a' ≤ c ∧ c ≤ 'f' then some (c.toNat - 87)
  else if 'A' ≤ c ∧ c ≤ 'F' then some (c.toNat - 55)
  else none

def percentDecodeL : List Char → List Char
  | [] => []
  | '+' :: rest => ' ' :: percentDecodeL rest
  | '%' :: a :: b :: rest =>
    (match hexDigitVal a, hexDigitVal b with
     | some x, some y => Char.ofNat (16 * x + y) :: percentDecodeL rest
     | _, _ => '%' :: percentDecodeL (a :: b :: rest))
  | c :: rest => c :: percentDecodeL rest

/- URLSearchParams(init): drop one leading question mark, split on '&',
   skip empty segments, split each segment at the first '=', decode both
   sides.  `get` returns the first value for a key, `has` tests presence. -/

def parsePiece (piece : List Char) : String × String :=
  match splitOnChar '=' piece with
  | [] => ("", "")
  | k :: vs =>
    (String.mk (percentDecodeL k), String.mk (percentDecodeL (intercalateChar '=' vs)))

def parseSearchParams (s : String) : List (String × String) :=
  let d := match s.data with
    | '?' :: rest => rest
    | l => l
  ((splitOnChar '&' d).filter (fun g => g ≠ [])).map parsePiece

def getParam (ps : List (String × String)) (k : String) : Option String :=
  (ps.find? (fun p => p.1 == k)).map (fun p => p.2)

def hasParam (ps : List (String × String)) (k : String) : Bool :=
  (ps.find? (fun p => p.1 == k)).isSome

/- `new URL(u).hash`: '#' plus the fragment when the fragment is nonempty,
   otherwise the empty string. -/

def urlHash (u : String) : String :=
  match splitOnChar '#' u.data with
  | [] => ""
  | [_] => ""
  | _ :: rest =>
    let frag := intercalateChar '#' rest
    if frag = [] then "" else String.mk ('#' :: frag)

def stripLeadingHash (h : String) : String :=
  match h.data with
  | '#' :: rest => String.mk rest
  | _ => h

/- JS Number(string), modelled on the decimal-integer subset (optional
   sign, decimal digits); other inputs are mapped to NaN. -/

inductive JsNumber
  | num : Int → JsNumber
  | nan : JsNumber
deriving DecidableEq

def digitsVal : List Char → Nat → Option Nat
  | [], acc => some acc
  | c :: cs, acc =>
    if c.isDigit then digitsVal cs (acc * 10 + (c.toNat - 48)) else none

def jsNumberOfString (s : String) : JsNumber :=
  match trimL s.data with
  | [] => JsNumber.num 0
  | '-' :: rest =>
    (match rest with
     | [] => JsNumber.nan
     | _ =>
       match digitsVal rest 0 with
       | some n => JsNumber.num (-(n : Int))
       | none => JsNumber.nan)
  | '+' :: rest =>
    (match rest with
     | [] => JsNumber.nan
     | _ =>
       match digitsVal rest 0 with
       | some n => JsNumber.num (n : Int)
       | none => JsNumber.nan)
  | t =>
    match digitsVal t 0 with
    | some n => JsNumber.num (n : Int)
    | none => JsNumber.nan

/- A JS `string | number` value, as in `options.phone`. -/

inductive JsValue
  | str : String → JsValue
  | num : Int → JsValue
deriving DecidableEq

/- Error model: AuthErrorCode subset used by account-verification.ts and
   the AuthorizationError payload {message, code, pageHtml?}. -/

inductive AuthErrorCode
  | invalidPhoneNumber
  | authorizationFailed
  | failedPassedCaptcha
  | failedPassedTwoFactor
deriving DecidableEq

structure AuthorizationError where
  message : String
  code : AuthErrorCode
  pageHtml : Option String
deriving DecidableEq

/- A raised JS value is either an AuthorizationError or a transport error
   re-thrown from the fetch collaborator. -/

inductive Thrown
  | auth : AuthorizationError → Thrown
  | transport : String → Thrown
deriving DecidableEq

/- Action markers and the two-factor attempt budget
   (account-verification.ts lines 26-46). -/

def ACTION_AUTH_CODE : String := "act=authcheck"

def ACTION_SECURITY_CODE : String := "act=security"

def ACTION_VALIDATE : String := "act=validate"

def ACTION_CAPTCHA : String := "act=captcha"

def TWO_FACTOR_ATTEMPTS : Nat := 3

/-- Modelled from the spec: CALLBACK_BLANK, the designated terminal
"blank callback" URL marker imported from the constants module, which is
not among the sources.  No claim depends on its exact text, only on
substring membership tests against it. -/
def CALLBACK_BLANK : String := "https://oauth.vk.com/blank.html"

/- The data cheerio extracts from a challenge page: serialized markup,
   the active form (parseFormField), the two masked-phone label texts
   ($('.field_prefix').first()/.last()), the captcha image source and the
   activation anchor href. -/

structure Page where
  html : String
  formAction : String
  formFields : List (String × String)
  firstMaskedLabelText : String
  lastMaskedLabelText : String
  captchaSrc : Option String
  activationHref : Option String
deriving DecidableEq

/- An HTTP exchange result: the final URL after redirects together with
   the parsed body markup. -/

structure Response where
  url : String
  page : Page
deriving DecidableEq

/- The options captured by the constructor from vk.options. -/

structure VerifOptions where
  login : Option String
  phone : Option JsValue
deriving DecidableEq

/- The per-attempt mutable instance state.  Pending validations are
   identified by handles (numbered by nextHandle); fetchCount indexes the
   transport calls made so far. -/

structure VerifState where
  captchaValidate : Option Nat
  captchaAttempts : Nat
  twoFactorValidate : Option Nat
  twoFactorAttempts : Nat
  nextHandle : Nat
  fetchCount : Nat
deriving DecidableEq

def initState : VerifState :=
  { captchaValidate := none, captchaAttempts := 0,
    twoFactorValidate := none, twoFactorAttempts := 0,
    nextHandle := 0, fetchCount := 0 }

/- Observable interactions, recorded in order of occurrence. -/

inductive VKind
  | twoFactor
  | captcha
deriving DecidableEq

inductive Event
  | loadMarkup : String → Event
  | extractForm : Event
  | readMaskedLabels : Event
  | rejectValidate : VKind → Nat → Thrown → Event
  | requestTwoFactor : Nat → Event
  | requestCaptcha : Nat → Option String → Option String → Event
  | httpGet : String → Event
  | httpPost : String → List (String × String) → Event
deriving DecidableEq

def isRejectEvent : Event → Bool
  | Event.rejectValidate _ _ _ => true
  | _ => false

/- The environment of external collaborators.  fetch is indexed by the
   number of transport calls already made; the codes and keys supplied by
   the callback service are indexed by the pending handle they come with. -/

structure Env where
  fetch : Nat → Except String Response
  twoFactorCode : Nat → String
  captchaKey : Nat → String
  /-- Modelled from the spec: getFullURL (helpers module, not among the
  sources) resolves a form action or anchor href against the base URL of
  the current response.  Kept uninterpreted: no claim constrains it. -/
  resolveURL : Option String → String → String
  /-- Modeling url.searchParams.set applied for the fixed utf8=1 query
  parameter on the captcha POST target; kept uninterpreted. -/
  addUtf8 : String → String

/- JS object field update `fields.name = value`: overwrite in place when
   the key exists, append otherwise. -/

def setField (fields : List (String × String)) (k v : String) : List (String × String) :=
  if fields.any (fun p => p.1 == k) then
    fields.map (fun p => if p.1 == k then (k, v) else p)
  else fields ++ [(k, v)]

def getField (fields : List (String × String)) (k : String) : Option String :=
  (fields.find? (fun p => p.1 == k)).map (fun p => p.2)

/- securityNumber: the phone-candidate choice at the top of
   processSecurityForm (lines 255-267): prefer options.phone, else
   options.login when it does not contain '@', else fail with
   INVALID_PHONE_NUMBER. -/

def missingPhoneError : AuthorizationError :=
  { message := "Missing phone number in the phone or login field",
    code := AuthErrorCode.invalidPhoneNumber, pageHtml := none }

def securityNumber (opts : VerifOptions) : Except AuthorizationError JsValue :=
  match opts.phone with
  | some p => Except.ok p
  | none =>
    match opts.login with
    | some l =>
      if jsIncludes l "@" then Except.error missingPhoneError
      else Except.ok (JsValue.str l)
    | none => Except.error missingPhoneError

/- processTwoFactorForm (lines 206-246).  Note what the source does and
   does not do: when this.twoFactorValidate is set it rejects it (keeping
   the page markup as diagnostic) and bumps the attempt counter, but it
   never assigns this.twoFactorValidate anywhere, and the reject branch
   does not clear it either; the handle obtained from
   processingTwoFactor is kept only in the local `validate`, which is
   rejected in the catch around the POST. -/

def processTwoFactorForm (env : Env) (s : VerifState) (response : Response)
    (page : Page) : Except Thrown Response × VerifState × List Event :=
  let step1 : VerifState × List Event :=
    match s.twoFactorValidate with
    | some h =>
      ({ s with twoFactorAttempts := s.twoFactorAttempts + 1 },
       [Event.rejectValidate VKind.twoFactor h (Thrown.auth
          { message := "Incorrect two-factor code",
            code := AuthErrorCode.failedPassedTwoFactor,
            pageHtml := some page.html })])
    | none => (s, [])
  let s1 := step1.1
  let ev1 := step1.2
  if s1.twoFactorAttempts ≥ TWO_FACTOR_ATTEMPTS then
    (Except.error (Thrown.auth
       { message := "Failed passed two-factor authentication",
         code := AuthErrorCode.failedPassedTwoFactor, pageHtml := none }),
     s1, ev1)
  else
    let action := page.formAction
    let fields := page.formFields
    let h := s1.nextHandle
    let code := env.twoFactorCode h
    let s2 := { s1 with nextHandle := h + 1 }
    let fields2 := setField fields "code" code
    let url := env.resolveURL (some action) response.url
    let ev2 := ev1 ++ [Event.extractForm, Event.requestTwoFactor h,
                       Event.httpPost url fields2]
    match env.fetch s2.fetchCount with
    | Except.ok newResponse =>
      (Except.ok newResponse, { s2 with fetchCount := s2.fetchCount + 1 }, ev2)
    | Except.error e =>
      (Except.error (Thrown.transport e),
       { s2 with fetchCount := s2.fetchCount + 1 },
       ev2 ++ [Event.rejectValidate VKind.twoFactor h (Thrown.transport e)])

/- processSecurityForm (lines 252-299). -/

def processSecurityForm (opts : VerifOptions) (env : Env) (s : VerifState)
    (response : Response) (page : Page) :
    Except Thrown Response × VerifState × List Event :=
  match securityNumber opts with
  | Except.error err => (Except.error (Thrown.auth err), s, [])
  | Except.ok numberV =>
    let number : String :=
      match numberV with
      | JsValue.str t => stripLeadingPlusOrZeros (jsTrim t)
      | JsValue.num n => toString n
    let maskedLen1 : Nat := (removeFirstPlus (jsTrim page.firstMaskedLabelText)).length
    let maskedLen2 : Nat := (jsTrim page.lastMaskedLabelText).length
    let action := page.formAction
    let fields := page.formFields
    let code := jsSlice number (maskedLen1 : Int)
      ((number.length : Int) - (maskedLen2 : Int))
    let fields2 := setField fields "code" code
    let url := env.resolveURL (some action) response.url
    let ev := [Event.readMaskedLabels, Event.extractForm, Event.httpPost url fields2]
    match env.fetch s.fetchCount with
    | Except.error e =>
      (Except.error (Thrown.transport e), { s with fetchCount := s.fetchCount + 1 }, ev)
    | Except.ok newResponse =>
      if jsIncludes newResponse.url ACTION_SECURITY_CODE then
        (Except.error (Thrown.auth
           { message := "Invalid phone number",
             code := AuthErrorCode.invalidPhoneNumber, pageHtml := none }),
         { s with fetchCount := s.fetchCount + 1 }, ev)
      else
        (Except.ok newResponse, { s with fetchCount := s.fetchCount + 1 }, ev)

/- processValidateForm (lines 305-312): GET the activation anchor target. -/

def processValidateForm (env : Env) (s : VerifState) (response : Response)
    (page : Page) : Except Thrown Response × VerifState × List Event :=
  let url := env.resolveURL page.activationHref response.url
  let ev := [Event.httpGet url]
  match env.fetch s.fetchCount with
  | Except.ok newResponse =>
    (Except.ok newResponse, { s with fetchCount := s.fetchCount + 1 }, ev)
  | Except.error e =>
    (Except.error (Thrown.transport e), { s with fetchCount := s.fetchCount + 1 }, ev)

/- processCaptchaForm (lines 318-354).  A still-open captcha pending is
   rejected (without markup), cleared and counted before the new external
   request is issued and its handle stored; the POST has no try/catch, so
   a transport failure propagates without rejecting the stored handle. -/

def processCaptchaForm (env : Env) (s : VerifState) (response : Response)
    (page : Page) : Except Thrown Response × VerifState × List Event :=
  let step1 : VerifState × List Event :=
    match s.captchaValidate with
    | some h =>
      ({ s with captchaValidate := none, captchaAttempts := s.captchaAttempts + 1 },
       [Event.rejectValidate VKind.captcha h (Thrown.auth
          { message := "Incorrect captcha code",
            code := AuthErrorCode.failedPassedCaptcha, pageHtml := none })])
    | none => (s, [])
  let s1 := step1.1
  let ev1 := step1.2
  let fields := page.formFields
  let src := page.captchaSrc
  let h := s1.nextHandle
  let key := env.captchaKey h
  let sid := getField fields "captcha_sid"
  let s2 := { s1 with nextHandle := h + 1, captchaValidate := some h }
  let fields2 := setField fields "captcha_key" key
  let url := env.addUtf8 (env.resolveURL (some page.formAction) response.url)
  let ev2 := ev1 ++ [Event.extractForm, Event.requestCaptcha h sid src,
                     Event.httpPost url fields2]
  match env.fetch s2.fetchCount with
  | Except.ok newResponse =>
    (Except.ok newResponse, { s2 with fetchCount := s2.fetchCount + 1 }, ev2)
  | Except.error e =>
    (Except.error (Thrown.transport e),
     { s2 with fetchCount := s2.fetchCount + 1 }, ev2)

/- The terminal result returned by run on the blank-callback redirect:
   {user, token} from the URL fragment. -/

structure TerminalSuccess where
  user : Option JsNumber
  token : Option String
deriving DecidableEq

inductive StepOut
  | done : TerminalSuccess → StepOut
  | thrown : Thrown → StepOut
  | next : Response → StepOut
deriving DecidableEq

/- JS `a || b` on a nullable string: null and the empty string both fall
   through to the default. -/

def jsOrDefault (o : Option String) (d : String) : String :=
  match o with
  | some t => if t = "" then d else t
  | none => d

def liftHandler (evL : List Event)
    (r : Except Thrown Response × VerifState × List Event) :
    StepOut × VerifState × List Event :=
  match r with
  | (Except.ok resp, s, ev) => (StepOut.next resp, s, evL ++ ev)
  | (Except.error t, s, ev) => (StepOut.thrown t, s, evL ++ ev)

/- One iteration of the while loop in run (lines 139-199): the URL tests
   run in source order — CALLBACK_BLANK, then act=authcheck, act=security,
   act=validate, act=captcha; the body markup is loaded (response.text()
   plus cheerioLoad) only after the CALLBACK_BLANK test has failed. -/

def runStep (opts : VerifOptions) (env : Env) (s : VerifState)
    (response : Response) : StepOut × VerifState × List Event :=
  let url := response.url
  if jsIncludes url CALLBACK_BLANK then
    let hash := stripLeadingHash (urlHash response.url)
    let params := parseSearchParams hash
    if hasParam params "error" then
      (StepOut.thrown (Thrown.auth
         { message := "Failed passed grant access: " ++
             jsOrDefault (getParam params "error_description") "Unknown error",
           code := AuthErrorCode.authorizationFailed, pageHtml := none }),
       s, [])
    else
      (StepOut.done
         { user := (getParam params "user_id").map jsNumberOfString,
           token := getParam params "access_token" },
       s, [])
  else
    let page := response.page
    let evL := [Event.loadMarkup page.html]
    if jsIncludes url ACTION_AUTH_CODE then
      liftHandler evL (processTwoFactorForm env s response page)
    else if jsIncludes url ACTION_SECURITY_CODE then
      liftHandler evL (processSecurityForm opts env s response page)
    else if jsIncludes url ACTION_VALIDATE then
      liftHandler evL (processValidateForm env s response page)
    else if jsIncludes url ACTION_CAPTCHA then
      liftHandler evL (processCaptchaForm env s response page)
    else
      (StepOut.thrown (Thrown.auth
         { message := "Account verification failed",
           code := AuthErrorCode.authorizationFailed, pageHtml := none }),
       s, evL)

/- The while loop itself, with explicit fuel: outcome none means the loop
   is still running after the given number of iterations. -/

def runLoop (opts : VerifOptions) (env : Env) :
    Nat → VerifState → Response →
    Option (Except Thrown TerminalSuccess) × VerifState × List Event
  | 0, s, _ => (none, s, [])
  | n + 1, s, resp =>
    match runStep opts env s resp with
    | (StepOut.done r, s2, ev) => (some (Except.ok r), s2, ev)
    | (StepOut.thrown t, s2, ev) => (some (Except.error t), s2, ev)
    | (StepOut.next r, s2, ev) =>
      let rec1 := runLoop opts env n s2 r
      (rec1.1, rec1.2.1, ev ++ rec1.2.2)

/- run(redirectUri) (lines 132-200): initial GET on the redirect URI,
   then the classification loop over the successive responses. -/

def run (opts : VerifOptions) (env : Env) (fuel : Nat) (redirectUri : String) :
    Option (Except Thrown TerminalSuccess) × VerifState × List Event :=
  let s0 : VerifState := { initState with fetchCount := 1 }
  let ev0 := [Event.httpGet redirectUri]
  match env.fetch 0 with
  | Except.error e => (some (Except.error (Thrown.transport e)), s0, ev0)
  | Except.ok r =>
    let rec1 := runLoop opts env fuel s0 r
    (rec1.1, rec1.2.1, ev0 ++ rec1.2.2)

/- The pure classification function implied by the if chain of run. -/

inductive ChallengeKind
  | terminal
  | twoFactor
  | securityCode
  | phoneValidation
  | captcha
  | unknown
deriving DecidableEq

def classify (url : String) : ChallengeKind :=
  if jsIncludes url CALLBACK_BLANK then ChallengeKind.terminal
  else if jsIncludes url ACTION_AUTH_CODE then ChallengeKind.twoFactor
  else if jsIncludes url ACTION_SECURITY_CODE then ChallengeKind.securityCode
  else if jsIncludes url ACTION_VALIDATE then ChallengeKind.phoneValidation
  else if jsIncludes url ACTION_CAPTCHA then ChallengeKind.captcha
  else ChallengeKind.unknown

/- The marker list in the order the source tests them. -/

def markerTable : List (String × ChallengeKind) :=
  [(CALLBACK_BLANK, ChallengeKind.terminal),
   (ACTION_AUTH_CODE, ChallengeKind.twoFactor),
   (ACTION_SECURITY_CODE, ChallengeKind.securityCode),
   (ACTION_VALIDATE, ChallengeKind.phoneValidation),
   (ACTION_CAPTCHA, ChallengeKind.captcha)]

def firstMatchingMarker (url : String) : ChallengeKind :=
  match markerTable.find? (fun p => jsIncludes url p.1) with
  | some p => p.2
  | none => ChallengeKind.unknown

/- Concrete fixtures used by the theorems and witnesses below. -/

def emptyPage : Page :=
  { html := "", formAction := "", formFields := [],
    firstMaskedLabelText := "", lastMaskedLabelText := "",
    captchaSrc := none, activationHref := none }

def opts0 : VerifOptions := { login := none, phone := none }

def env0 : Env :=
  { fetch := fun _ => Except.error "unused",
    twoFactorCode := fun _ => "",
    captchaKey := fun _ => "",
    resolveURL := fun a b => a.getD "" ++ b,
    addUtf8 := fun u => u }

def pageTF : Page :=
  { html := "<html>twofactor</html>",
    formAction := "/login?act=authcheck_code",
    formFields := [("remember", "1")],
    firstMaskedLabelText := "", lastMaskedLabelText := "",
    captchaSrc := none, activationHref := none }

def respTF : Response :=
  { url := "https://m.vk.com/login?act=authcheck", page := pageTF }

def envTF : Env :=
  { fetch := fun _ => Except.ok respTF,
    twoFactorCode := fun _ => "000000",
    captchaKey := fun _ => "",
    resolveURL := fun a b => a.getD "" ++ b,
    addUtf8 := fun u => u }

def envErrTF : Env :=
  { fetch := fun _ => Except.error "boom",
    twoFactorCode := fun _ => "000000",
    captchaKey := fun _ => "",
    resolveURL := fun a b => a.getD "" ++ b,
    addUtf8 := fun u => u }

def pageV : Page :=
  { html := "<html>validate</html>", formAction := "", formFields := [],
    firstMaskedLabelText := "", lastMaskedLabelText := "",
    captchaSrc := none, activationHref := some "/activation" }

def respV : Response :=
  { url := "https://m.vk.com/login?act=validate", page := pageV }

def envV : Env :=
  { fetch := fun _ => Except.ok respV,
    twoFactorCode := fun _ => "",
    captchaKey := fun _ => "",
    resolveURL := fun a b => a.getD "" ++ b,
    addUtf8 := fun u => u }

def pageC : Page :=
  { html := "<html>captcha</html>",
    formAction := "/login?act=captcha_submit",
    formFields := [("captcha_sid", "987")],
    firstMaskedLabelText := "", lastMaskedLabelText := "",
    captchaSrc := some "/captcha.php?sid=987", activationHref := none }

def respC : Response :=
  { url := "https://m.vk.com/login?act=captcha", page := pageC }

def envC : Env :=
  { fetch := fun _ => Except.ok respC,
    twoFactorCode := fun _ => "",
    captchaKey := fun _ => "abcde",
    resolveURL := fun a b => a.getD "" ++ b,
    addUtf8 := fun u => u }

def envErrC : Env :=
  { fetch := fun _ => Except.error "network timeout",
    twoFactorCode := fun _ => "",
    captchaKey := fun _ => "abcde",
    resolveURL := fun a b => a.getD "" ++ b,
    addUtf8 := fun u => u }

def optsPhone : VerifOptions :=
  { login := none, phone := some (JsValue.str "+71234567890") }

def optsEmail : VerifOptions :=
  { login := some "user@example.com", phone := none }

def pageSec : Page :=
  { html := "<html>security</html>", formAction := "/login?act=security_check",
    formFields := [],
    firstMaskedLabelText := "+12", lastMaskedLabelText := "90",
    captchaSrc := none, activationHref := none }

def respSec : Response :=
  { url := "https://m.vk.com/login?act=security", page := pageSec }

def respBlank : Response :=
  { url := "https://oauth.vk.com/blank.html#access_token=tok123&user_id=42",
    page := emptyPage }

def respBoth : Response :=
  { url := "https://oauth.vk.com/blank.html?act=authcheck#access_token=tok",
    page := emptyPage }

def respUnknown : Response :=
  { url := "https://m.vk.com/login?act=somethingelse", page := emptyPage }

def pendingCaptchaState : VerifState :=
  { captchaValidate := some 0, captchaAttempts := 0,
    twoFactorValidate := none, twoFactorAttempts := 0,
    nextHandle := 1, fetchCount := 1 }

def tfState (a b : Nat) : VerifState :=
  { captchaValidate := none, captchaAttempts := 0,
    twoFactorValidate := none, twoFactorAttempts := 0,
    nextHandle := a, fetchCount := b }

/- Helper lemmas.  envTF is a portal that classifies every submission as
   TwoFactor again (each submitted code is wrong); envV is a portal that
   keeps presenting the act=validate challenge. -/

lemma runStep_envTF (a b : Nat) :
    runStep opts0 envTF (tfState a b) respTF =
    (StepOut.next respTF, tfState (a + 1) (b + 1),
     [Event.loadMarkup pageTF.html, Event.extractForm, Event.requestTwoFactor a,
      Event.httpPost ("/login?act=authcheck_code" ++ respTF.url)
        (setField pageTF.formFields "code" "000000")]) := rfl

lemma runLoop_envTF : ∀ (n a b : Nat),
    (runLoop opts0 envTF n (tfState a b) respTF).1 = none ∧
    (runLoop opts0 envTF n (tfState a b) respTF).2.1.twoFactorValidate = none ∧
    (runLoop opts0 envTF n (tfState a b) respTF).2.1.twoFactorAttempts = 0 ∧
    ∀ e ∈ (runLoop opts0 envTF n (tfState a b) respTF).2.2,
      isRejectEvent e = false := by
  intro n
  induction n with
  | zero =>
    intro a b
    refine ⟨rfl, rfl, rfl, ?_⟩
    intro e he
    simp [runLoop] at he
  | succ n ih =>
    intro a b
    have hstep := runStep_envTF a b
    simp only [runLoop, hstep]
    obtain ⟨h1, h2, h3, h4⟩ := ih (a + 1) (b + 1)
    refine ⟨h1, h2, h3, ?_⟩
    intro e he
    rcases List.mem_append.mp he with hl | hr
    · fin_cases hl <;> rfl
    · exact h4 e hr

lemma runStep_envV (s : VerifState) :
    runStep opts0 envV s respV =
    (StepOut.next respV, { s with fetchCount := s.fetchCount + 1 },
     [Event.loadMarkup pageV.html, Event.httpGet ("/activation" ++ respV.url)]) := rfl

lemma runLoop_envV : ∀ (n : Nat) (s : VerifState),
    (runLoop opts0 envV n s respV).1 = none := by
  intro n
  induction n with
  | zero => intro s; rfl
  | succ n ih =>
    intro s
    simp only [runLoop, runStep_envV]
    exact ih _

/-- Claim C1 (code_bug evaluation): under a portal that returns the
TwoFactor classification after every code submission (each code is wrong),
the loop runs any number of iterations without storing a pending
two-factor validation, without rejecting anything, and with the attempt
counter stuck at 0 — so it never fails with FailedPassedTwoFactor, no
matter how many wrong codes are submitted.  The source never assigns
this.twoFactorValidate, so the reject-and-count branch of
processTwoFactorForm is unreachable and the three-attempt budget never
trips, contrary to the claim (and to the spec, which says the validator
handle is stored as the TwoFactor pending on each pass). -/
theorem twoFactor_pending_never_stored (n : Nat) (uri : String) :
    (run opts0 envTF n uri).1 = none ∧
    (run opts0 envTF n uri).2.1.twoFactorValidate = none ∧
    (run opts0 envTF n uri).2.1.twoFactorAttempts = 0 ∧
    ∀ e ∈ (run opts0 envTF n uri).2.2, isRejectEvent e = false := by
  have hrun : run opts0 envTF n uri =
      ((runLoop opts0 envTF n (tfState 0 1) respTF).1,
       (runLoop opts0 envTF n (tfState 0 1) respTF).2.1,
       Event.httpGet uri :: (runLoop opts0 envTF n (tfState 0 1) respTF).2.2) := rfl
  obtain ⟨h1, h2, h3, h4⟩ := runLoop_envTF n 0 1
  rw [hrun]
  refine ⟨h1, h2, h3, ?_⟩
  intro e he
  rcases List.mem_cons.mp he with hl | hr
  · rw [hl]; rfl
  · exact h4 e hr

/-- Claim C2 counterexample: a transport failure of the captcha POST does
NOT reject the just-stored captcha pending validation before the error
propagates out of run: after one loop iteration under a failing transport
the outcome is the propagated transport error, the captcha pending handle
is still stored, and the trace contains no reject at all — an external
caller is left waiting.  (The captcha POST has no try/catch, unlike the
two-factor POST.) -/
theorem captcha_transport_failure_leaves_pending :
    (runLoop opts0 envErrC 1 initState respC).1 =
      some (Except.error (Thrown.transport "network timeout")) ∧
    (runLoop opts0 envErrC 1 initState respC).2.1.captchaValidate = some 0 ∧
    ∀ e ∈ (runLoop opts0 envErrC 1 initState respC).2.2,
      isRejectEvent e = false := by
  refine ⟨rfl, rfl, ?_⟩
  have hev : (runLoop opts0 envErrC 1 initState respC).2.2 =
      [Event.loadMarkup pageC.html, Event.extractForm,
       Event.requestCaptcha 0 (some "987") (some "/captcha.php?sid=987"),
       Event.httpPost ("/login?act=captcha_submit" ++ respC.url)
         (setField pageC.formFields "captcha_key" "abcde")] := rfl
  rw [hev]
  intro e he
  fin_cases he <;> rfl

/-- Claim C2 (amended): only the two-factor POST enjoys the
reject-then-rethrow protection.  When the two-factor POST fails in
transport, the handler rejects the just-created pending validation with
that very error — after the external request was issued — and re-raises
the transport error. -/
theorem twoFactor_transport_failure_rejects
    (env : Env) (s : VerifState) (resp : Response) (page : Page) (e : String)
    (h1 : s.twoFactorValidate = none)
    (h2 : s.twoFactorAttempts < TWO_FACTOR_ATTEMPTS)
    (hf : env.fetch s.fetchCount = Except.error e) :
    processTwoFactorForm env s resp page =
      (Except.error (Thrown.transport e),
       { s with nextHandle := s.nextHandle + 1, fetchCount := s.fetchCount + 1 },
       [Event.extractForm, Event.requestTwoFactor s.nextHandle,
        Event.httpPost (env.resolveURL (some page.formAction) resp.url)
          (setField page.formFields "code" (env.twoFactorCode s.nextHandle)),
        Event.rejectValidate VKind.twoFactor s.nextHandle (Thrown.transport e)]) := by
  have hnot : ¬ (s.twoFactorAttempts ≥ TWO_FACTOR_ATTEMPTS) := Nat.not_le_of_lt h2
  simp only [processTwoFactorForm, h1, hf, if_neg hnot]
  rfl

/-- Claim C2 (amended) witness: concrete instantiation with a failing
transport. -/
theorem twoFactor_transport_failure_rejects_witness :
    initState.twoFactorValidate = none ∧
    initState.twoFactorAttempts < TWO_FACTOR_ATTEMPTS ∧
    envErrTF.fetch initState.fetchCount = Except.error "boom" ∧
    processTwoFactorForm envErrTF initState respTF pageTF =
      (Except.error (Thrown.transport "boom"),
       { initState with nextHandle := initState.nextHandle + 1,
                        fetchCount := initState.fetchCount + 1 },
       [Event.extractForm, Event.requestTwoFactor initState.nextHandle,
        Event.httpPost (envErrTF.resolveURL (some pageTF.formAction) respTF.url)
          (setField pageTF.formFields "code" (envErrTF.twoFactorCode initState.nextHandle)),
        Event.rejectValidate VKind.twoFactor initState.nextHandle
          (Thrown.transport "boom")]) :=
  ⟨rfl, by decide, rfl,
   twoFactor_transport_failure_rejects envErrTF initState respTF pageTF "boom"
     rfl (by decide) rfl⟩

/-- Claim C3: whenever the captcha handler is entered with a Captcha
pending validation still open, the trace of the call is exactly: one
rejection of that handle with FailedPassedCaptcha (no page markup
attached), then the form extraction, then the new external captcha
request, then the POST — so exactly one reject call precedes the next
request for the Captcha kind; the stale handle is replaced by the fresh
one (at most one pending per kind) and the captcha attempt counter is
incremented. -/
theorem captcha_single_pending
    (env : Env) (s : VerifState) (resp : Response) (page : Page) (h : Nat)
    (hp : s.captchaValidate = some h) :
    (processCaptchaForm env s resp page).2.1.captchaValidate = some s.nextHandle ∧
    (processCaptchaForm env s resp page).2.1.captchaAttempts = s.captchaAttempts + 1 ∧
    (processCaptchaForm env s resp page).2.2 =
      [Event.rejectValidate VKind.captcha h (Thrown.auth
         { message := "Incorrect captcha code",
           code := AuthErrorCode.failedPassedCaptcha, pageHtml := none }),
       Event.extractForm,
       Event.requestCaptcha s.nextHandle (getField page.formFields "captcha_sid")
         page.captchaSrc,
       Event.httpPost (env.addUtf8 (env.resolveURL (some page.formAction) resp.url))
         (setField page.formFields "captcha_key" (env.captchaKey s.nextHandle))] := by
  simp only [processCaptchaForm, hp]
  cases hfe : env.fetch s.fetchCount <;> simp [hfe]

/-- Claim C3 witness: re-entry with pending handle 0 open. -/
theorem captcha_single_pending_witness :
    pendingCaptchaState.captchaValidate = some 0 ∧
    ((processCaptchaForm envC pendingCaptchaState respC pageC).2.1.captchaValidate =
       some pendingCaptchaState.nextHandle ∧
     (processCaptchaForm envC pendingCaptchaState respC pageC).2.1.captchaAttempts =
       pendingCaptchaState.captchaAttempts + 1 ∧
     (processCaptchaForm envC pendingCaptchaState respC pageC).2.2 =
       [Event.rejectValidate VKind.captcha 0 (Thrown.auth
          { message := "Incorrect captcha code",
            code := AuthErrorCode.failedPassedCaptcha, pageHtml := none }),
        Event.extractForm,
        Event.requestCaptcha pendingCaptchaState.nextHandle
          (getField pageC.formFields "captcha_sid") pageC.captchaSrc,
        Event.httpPost (envC.addUtf8 (envC.resolveURL (some pageC.formAction) respC.url))
          (setField pageC.formFields "captcha_key"
            (envC.captchaKey pendingCaptchaState.nextHandle))]) :=
  ⟨rfl, captcha_single_pending envC pendingCaptchaState respC pageC 0 rfl⟩

/-- Claim C4 counterexample: it is NOT the case that every execution of
run terminates (reaches some outcome for some fuel): under the portal
envV, which keeps answering every exchange with the act=validate
challenge, no amount of fuel makes the loop produce an outcome.  The
retry budgets do not force termination: PhoneValidation (and Captcha)
carry no budget at all, and the TwoFactor budget is dead code since the
pending handle is never stored. -/
theorem run_termination_refuted :
    ¬ ∀ (opts : VerifOptions) (env : Env) (uri : String),
        ∃ fuel, (run opts env fuel uri).1.isSome := by
  intro h
  obtain ⟨fuel, hf⟩ := h opts0 envV "https://m.vk.com/login?act=validate"
  have hnone : (run opts0 envV fuel "https://m.vk.com/login?act=validate").1 =
      (runLoop opts0 envV fuel { initState with fetchCount := 1 } respV).1 := rfl
  rw [hnone, runLoop_envV fuel _] at hf
  simp at hf

/-- Claim C4 (amended): the orchestrator loop carries no iteration bound
and the code's retry budgets do not force termination — under the
always-validate portal the loop is still running after every number of
iterations. -/
theorem run_unbounded_iterations (n : Nat) (uri : String) :
    (run opts0 envV n uri).1 = none := by
  have hnone : (run opts0 envV n uri).1 =
      (runLoop opts0 envV n { initState with fetchCount := 1 } respV).1 := rfl
  rw [hnone]
  exact runLoop_envV n _

/-- Claim C5: on a response whose URL contains the terminal marker, run
parses the URL fragment as key/value parameters; if an error parameter is
present it throws AuthorizationFailed with the message built from
error_description (the JS short-circuit defaulting to "Unknown error"
when it is absent), and otherwise it returns success with token = the
access_token parameter and user = Number(user_id) when user_id is present
and unset when absent.  No markup is loaded (the trace is empty). -/
theorem terminal_fragment_result
    (opts : VerifOptions) (env : Env) (s : VerifState) (resp : Response) (n : Nat)
    (hb : jsIncludes resp.url CALLBACK_BLANK = true) :
    (hasParam (parseSearchParams (stripLeadingHash (urlHash resp.url))) "error" = true →
      runLoop opts env (n + 1) s resp =
        (some (Except.error (Thrown.auth
           { message := "Failed passed grant access: " ++
               jsOrDefault
                 (getParam (parseSearchParams (stripLeadingHash (urlHash resp.url)))
                   "error_description") "Unknown error",
             code := AuthErrorCode.authorizationFailed, pageHtml := none })),
         s, [])) ∧
    (hasParam (parseSearchParams (stripLeadingHash (urlHash resp.url))) "error" = false →
      runLoop opts env (n + 1) s resp =
        (some (Except.ok
           { user := (getParam (parseSearchParams (stripLeadingHash (urlHash resp.url)))
                 "user_id").map jsNumberOfString,
             token := getParam (parseSearchParams (stripLeadingHash (urlHash resp.url)))
               "access_token" }),
         s, [])) := by
  constructor <;> intro hc <;> simp [runLoop, runStep, hb, hc]

/-- Claim C5 witness: the terminal redirect carrying
access_token=tok123 and user_id=42 yields success {user 42, token
"tok123"}. -/
theorem terminal_fragment_result_witness :
    jsIncludes respBlank.url CALLBACK_BLANK = true ∧
    hasParam (parseSearchParams (stripLeadingHash (urlHash respBlank.url))) "error" = false ∧
    (runLoop opts0 env0 1 initState respBlank).1 =
      some (Except.ok { user := some (JsNumber.num 42), token := some "tok123" }) := by
  refine ⟨rfl, rfl, ?_⟩
  have h := (terminal_fragment_result opts0 env0 initState respBlank 0 rfl).2 rfl
  exact congrArg (fun t => t.1) h

/-- Claim C6: with a textual phone configured, the security handler POSTs
a code field equal to the normalized number — trimmed, one leading plus
or leading 00 stripped — sliced from index prefixLen to index
length - suffixLen, where prefixLen is the length of the first
field_prefix label text (trimmed, first plus removed) and suffixLen is
the length of the last field_prefix label text (trimmed); i.e. precisely
number.slice(prefixLen, number.length - suffixLen). -/
theorem security_code_slice
    (opts : VerifOptions) (env : Env) (s : VerifState) (resp : Response)
    (page : Page) (p : String)
    (hp : opts.phone = some (JsValue.str p)) :
    (processSecurityForm opts env s resp page).2.2 =
      [Event.readMaskedLabels, Event.extractForm,
       Event.httpPost (env.resolveURL (some page.formAction) resp.url)
         (setField page.formFields "code"
           (jsSlice (stripLeadingPlusOrZeros (jsTrim p))
             ((removeFirstPlus (jsTrim page.firstMaskedLabelText)).length : Int)
             (((stripLeadingPlusOrZeros (jsTrim p)).length : Int) -
              ((jsTrim page.lastMaskedLabelText).length : Int))))] := by
  simp only [processSecurityForm, securityNumber, hp]
  cases hfe : env.fetch s.fetchCount
  · simp [hfe]
  · simp [hfe]
    split <;> simp

/-- Claim C6 witness: phone "+71234567890" with masked-label lengths 2
and 2 submits slice(2, 11 - 2) = "2345678" of the stripped number. -/
theorem security_code_slice_witness :
    optsPhone.phone = some (JsValue.str "+71234567890") ∧
    (processSecurityForm optsPhone env0 initState respSec pageSec).2.2 =
      [Event.readMaskedLabels, Event.extractForm,
       Event.httpPost ("/login?act=security_check" ++ respSec.url)
         (setField pageSec.formFields "code" "2345678")] := by
  refine ⟨rfl, ?_⟩
  have h := security_code_slice optsPhone env0 initState respSec pageSec
    "+71234567890" rfl
  exact h.trans (by rfl)

/-- Claim C7: on a security-code challenge with no phone configured and a
login that is absent or email-like (contains an at sign), the handler
fails with InvalidPhoneNumber and an empty trace — before any form
extraction is attempted; and whenever a phone is configured it is the
candidate, whatever the login. -/
theorem security_missing_phone
    (opts : VerifOptions) (env : Env) (s : VerifState) (resp : Response)
    (page : Page) :
    (opts.phone = none →
      (opts.login = none ∨ ∃ l, opts.login = some l ∧ jsIncludes l "@" = true) →
      processSecurityForm opts env s resp page =
        (Except.error (Thrown.auth missingPhoneError), s, [])) ∧
    (∀ p, opts.phone = some p → securityNumber opts = Except.ok p) := by
  constructor
  · intro hp hl
    rcases hl with hl | ⟨l, hl, hat⟩
    · simp [processSecurityForm, securityNumber, hp, hl]
    · simp [processSecurityForm, securityNumber, hp, hl, hat]
  · intro p hp
    simp [securityNumber, hp]

/-- Claim C7 witness: no phone, email-style login. -/
theorem security_missing_phone_witness :
    optsEmail.phone = none ∧
    (optsEmail.login = none ∨
      ∃ l, optsEmail.login = some l ∧ jsIncludes l "@" = true) ∧
    processSecurityForm optsEmail env0 initState respSec pageSec =
      (Except.error (Thrown.auth missingPhoneError), initState, []) :=
  ⟨rfl, Or.inr ⟨"user@example.com", rfl, by decide⟩,
   (security_missing_phone optsEmail env0 initState respSec pageSec).1 rfl
     (Or.inr ⟨"user@example.com", rfl, by decide⟩)⟩

/-- Claim C8: after the security-form POST succeeds in transport, the
handler fails with InvalidPhoneNumber when the response URL still
contains the SecurityCode marker, and otherwise returns that response
unchanged. -/
theorem security_resubmission_check
    (opts : VerifOptions) (env : Env) (s : VerifState) (resp : Response)
    (page : Page) (p : JsValue) (r2 : Response)
    (hp : opts.phone = some p)
    (hf : env.fetch s.fetchCount = Except.ok r2) :
    (jsIncludes r2.url ACTION_SECURITY_CODE = true →
      (processSecurityForm opts env s resp page).1 =
        Except.error (Thrown.auth
          { message := "Invalid phone number",
            code := AuthErrorCode.invalidPhoneNumber, pageHtml := none })) ∧
    (jsIncludes r2.url ACTION_SECURITY_CODE = false →
      (processSecurityForm opts env s resp page).1 = Except.ok r2) := by
  constructor <;> intro hc <;> simp [processSecurityForm, securityNumber, hp, hf, hc]

/-- Claim C8 witness: the POST leads to an act=validate page, which is
returned unchanged. -/
theorem security_resubmission_check_witness :
    optsPhone.phone = some (JsValue.str "+71234567890") ∧
    envV.fetch initState.fetchCount = Except.ok respV ∧
    ((jsIncludes respV.url ACTION_SECURITY_CODE = true →
       (processSecurityForm optsPhone envV initState respSec pageSec).1 =
         Except.error (Thrown.auth
           { message := "Invalid phone number",
             code := AuthErrorCode.invalidPhoneNumber, pageHtml := none })) ∧
     (jsIncludes respV.url ACTION_SECURITY_CODE = false →
       (processSecurityForm optsPhone envV initState respSec pageSec).1 =
         Except.ok respV)) :=
  ⟨rfl, rfl,
   security_resubmission_check optsPhone envV initState respSec pageSec
     (JsValue.str "+71234567890") respV rfl rfl⟩

/-- Claim C9: when the markup has been loaded (terminal marker absent)
and none of the four challenge markers matches the response URL, the loop
iteration throws AuthorizationFailed "Account verification failed"; the
trace shows exactly the markup load. -/
theorem unknown_marker_fails
    (opts : VerifOptions) (env : Env) (s : VerifState) (resp : Response)
    (h1 : jsIncludes resp.url CALLBACK_BLANK = false)
    (h2 : jsIncludes resp.url ACTION_AUTH_CODE = false)
    (h3 : jsIncludes resp.url ACTION_SECURITY_CODE = false)
    (h4 : jsIncludes resp.url ACTION_VALIDATE = false)
    (h5 : jsIncludes resp.url ACTION_CAPTCHA = false) :
    runStep opts env s resp =
      (StepOut.thrown (Thrown.auth
         { message := "Account verification failed",
           code := AuthErrorCode.authorizationFailed, pageHtml := none }),
       s, [Event.loadMarkup resp.page.html]) := by
  simp [runStep, h1, h2, h3, h4, h5]

/-- Claim C9 witness: a URL carrying none of the markers. -/
theorem unknown_marker_fails_witness :
    jsIncludes respUnknown.url CALLBACK_BLANK = false ∧
    jsIncludes respUnknown.url ACTION_AUTH_CODE = false ∧
    jsIncludes respUnknown.url ACTION_SECURITY_CODE = false ∧
    jsIncludes respUnknown.url ACTION_VALIDATE = false ∧
    jsIncludes respUnknown.url ACTION_CAPTCHA = false ∧
    runStep opts0 env0 initState respUnknown =
      (StepOut.thrown (Thrown.auth
         { message := "Account verification failed",
           code := AuthErrorCode.authorizationFailed, pageHtml := none }),
       initState, [Event.loadMarkup respUnknown.page.html]) :=
  ⟨by decide, by decide, by decide, by decide, by decide,
   unknown_marker_fails opts0 env0 initState respUnknown
     (by decide) (by decide) (by decide) (by decide) (by decide)⟩

/-- Claim C10: the URL tests run in the fixed source order — terminal
marker first, then act=authcheck, act=security, act=validate, act=captcha
— so classification equals the first matching marker of that list; in
particular a URL containing the terminal marker (even together with any
challenge marker) is treated as terminal and the loop iteration loads no
markup (its trace is empty). -/
theorem classifier_fixed_order :
    (∀ url, classify url = firstMatchingMarker url) ∧
    (∀ (opts : VerifOptions) (env : Env) (s : VerifState) (resp : Response),
      jsIncludes resp.url CALLBACK_BLANK = true →
      classify resp.url = ChallengeKind.terminal ∧
      (runStep opts env s resp).2.2 = []) := by
  constructor
  · intro url
    cases hb : jsIncludes url CALLBACK_BLANK <;>
      cases ha : jsIncludes url ACTION_AUTH_CODE <;>
        cases hs : jsIncludes url ACTION_SECURITY_CODE <;>
          cases hv : jsIncludes url ACTION_VALIDATE <;>
            cases hc : jsIncludes url ACTION_CAPTCHA <;>
              simp [classify, firstMatchingMarker, markerTable, List.find?,
                    hb, ha, hs, hv, hc]
  · intro opts env s resp hb
    refine ⟨by simp [classify, hb], ?_⟩
    simp [runStep, hb]
    split <;> rfl

/-- Claim C10 witness: a URL containing both the terminal marker and the
act=authcheck marker is classified terminal, with no markup load. -/
theorem classifier_fixed_order_witness :
    jsIncludes respBoth.url CALLBACK_BLANK = true ∧
    jsIncludes respBoth.url ACTION_AUTH_CODE = true ∧
    (classify respBoth.url = ChallengeKind.terminal ∧
     (runStep opts0 env0 initState respBoth).2.2 = []) :=
  ⟨by decide, by decide,
   classifier_fixed_order.2 opts0 env0 initState respBoth (by decide)⟩
